import Mathlib

/-!
Shallow embedding of the two development servers of this repository:
`scripts/dev-server.py` (plain HTTP static server with COEP/COOP header
injection, MIME overrides and marker-prefixed logging) and
`start_https_server.py` (HTTPS static server with one-shot self-signed
certificate bootstrap).  Pure request-handler overrides are embedded as Lean
functions; the stateful startup path of the HTTPS server is embedded as
explicit state passing over a small filesystem model together with an event
trace.  External capabilities (the standard library's default MIME guesser,
Python's `int` parser, the `openssl` tool) are passed in as parameters, as
the spec directs ("abstract as an injected capability").
-/

namespace WebGPUServers

/-- One HTTP response header: a name/value pair. -/
structure Header where
  name : String
  value : String
deriving DecidableEq

/-- The `Cross-Origin-Embedder-Policy: require-corp` header sent by
`WebGPUHTTPRequestHandler.end_headers`. -/
def coepHeader : Header := ⟨"Cross-Origin-Embedder-Policy", "require-corp"⟩

/-- The `Cross-Origin-Opener-Policy: same-origin` header sent by
`WebGPUHTTPRequestHandler.end_headers`. -/
def coopHeader : Header := ⟨"Cross-Origin-Opener-Policy", "same-origin"⟩

/-- `WebGPUHTTPRequestHandler.end_headers` (scripts/dev-server.py).
`base` is the list of headers already buffered by the underlying library
(status line headers, `Content-Type`, ...) at the moment `end_headers` is
called; the override sends the two CORS headers and then lets
`super().end_headers()` flush, so the emitted header list is `base` followed
by the two fixed headers. -/
def end_headers (base : List Header) : List Header :=
  base ++ [coepHeader, coopHeader]

/-- Python's `str.endswith`: `pyEndsWith s t` is true iff the last
`t.length` characters of `s` are exactly `t`. -/
def pyEndsWith (s t : String) : Bool :=
  s.toList.reverse.take t.toList.length == t.toList.reverse

/-- `WebGPUHTTPRequestHandler.guess_type` (scripts/dev-server.py).
`g` is the underlying library's guesser (`super().guess_type`), producing a
`(mimetype, encoding)` pair.  The override first consults `g`, then forces
the type for `.wasm`, `.js` and `.html` paths, always passing the encoding
through unchanged. -/
def guess_type (g : String → String × Option String) (path : String) :
    String × Option String :=
  if pyEndsWith path ".wasm" then ("application/wasm", (g path).2)
  else if pyEndsWith path ".js" then ("application/javascript", (g path).2)
  else if pyEndsWith path ".html" then ("text/html", (g path).2)
  else ((g path).1, (g path).2)

/-- Python's substring test `needle in haystack`. -/
def inStr (needle haystack : String) : Bool :=
  (List.range (haystack.toList.length + 1)).any
    (fun i => (haystack.toList.drop i).take needle.toList.length == needle.toList)

/-- `WebGPUHTTPRequestHandler.log_message` (scripts/dev-server.py).
`message` is the fully formatted log line (`format % args`); the emitted
line prefixes it with a success, failure or informational marker depending
on whether it contains "200", else "404", else neither. -/
def log_message (message : String) : String :=
  if inStr "200" message then "✅ " ++ message
  else if inStr "404" message then "❌ " ++ message
  else "ℹ️  " ++ message

/-- Configuration computed by the `__main__` block of scripts/dev-server.py:
a port and an optional directory (`none` means "stay in the current working
directory": `run_server` only calls `os.chdir` when a directory was given). -/
structure HttpConfig where
  port : Int
  directory : Option String
deriving DecidableEq

/-- Configuration computed by the `__main__` block of
start_https_server.py: a directory and a port. -/
structure HttpsConfig where
  directory : String
  port : Int
deriving DecidableEq

/-- The `__main__` block of scripts/dev-server.py.  `toInt` is Python's
`int` constructor (`none` models the `ValueError` it raises on a
non-numeric string, which aborts startup); `argv` is the full `sys.argv`
including the script name at index 0.  `port = int(sys.argv[1])` when
`len(sys.argv) > 1`, `directory = sys.argv[2]` when `len(sys.argv) > 2`;
defaults are 3377 and `None`. -/
def httpMain (toInt : String → Option Int) (argv : List String) :
    Option HttpConfig :=
  match argv with
  | [] => some ⟨3377, none⟩
  | [_] => some ⟨3377, none⟩
  | [_, a1] => (toInt a1).map (fun p => ⟨p, none⟩)
  | _ :: a1 :: a2 :: _ => (toInt a1).map (fun p => ⟨p, some a2⟩)

/-- The `__main__` block of start_https_server.py.  `directory =
sys.argv[1]` when present, `port = int(sys.argv[2])` when present; defaults
are `"build_web/apps/viewer"` and 3443. -/
def httpsMain (toInt : String → Option Int) (argv : List String) :
    Option HttpsConfig :=
  match argv with
  | [] => some ⟨"build_web/apps/viewer", 3443⟩
  | [_] => some ⟨"build_web/apps/viewer", 3443⟩
  | [_, a1] => some ⟨a1, 3443⟩
  | _ :: a1 :: a2 :: _ => (toInt a2).map (fun p => ⟨a1, p⟩)

/-- A model of Python's `int()` on decimal digit strings with an optional
leading minus sign, used only to instantiate the `toInt` parameter at
concrete inputs. -/
def decDigits (l : List Char) : Option Nat :=
  if l.isEmpty then none
  else l.foldl
    (fun acc c =>
      acc.bind (fun n => if c.isDigit then some (n * 10 + (c.toNat - 48)) else none))
    (some 0)

/-- A model of Python's `int()` (decimal, optional leading minus sign). -/
def pyInt (s : String) : Option Int :=
  match s.toList with
  | '-' :: rest => (decDigits rest).map (fun n => -(n : Int))
  | l => (decDigits l).map (fun n => (n : Int))

/-- The serving directory's filesystem state as far as the certificate
bootstrap observes it: the contents of `server.crt` and `server.key`
(`none` = file absent, modelling `os.path.exists` returning `False`). -/
structure FS where
  crt : Option String
  key : Option String
deriving DecidableEq

/-- The behaviour of the external `openssl` tool when
`subprocess.run(..., check=True)` attempts to invoke it:
it either succeeds and writes fresh contents to both output paths
(`ok crtContent keyContent`), exits with a non-zero status
(`subprocess.CalledProcessError`), or is absent from the environment so the
invocation raises `FileNotFoundError` without running any process. -/
inductive ToolResult where
  | ok (crtContent keyContent : String)
  | nonzeroExit
  | notFound
deriving DecidableEq

/-- Result of `create_self_signed_cert`: a returned path pair, or a raised
exception propagating to the caller. -/
inductive CertOutcome where
  | ok (certFile keyFile : String)
  | calledProcessError
  | fileNotFoundError
deriving DecidableEq

/-- Observable events of the HTTPS startup path, in program order. -/
inductive Event where
  | chdir (dir : String)
  | printMsg (msg : String)
  | runCmd (cmd : List String)
  | bindPort (port : Int)
  | loadCert (crt key : String)
  | serveLoop
deriving DecidableEq

/-- The exact argument vector `create_self_signed_cert` passes to
`subprocess.run` (start_https_server.py, lines 25-30). -/
def opensslCmd : List String :=
  ["openssl", "req", "-new", "-x509", "-keyout", "server.key",
   "-out", "server.crt", "-days", "365", "-nodes",
   "-subj", "/C=US/ST=CA/L=localhost/O=WebGPU-Test/CN=localhost"]

/-- Result of running `create_self_signed_cert` on a filesystem state:
the outcome, the filesystem afterwards, and the events it produced. -/
structure CertRun where
  outcome : CertOutcome
  fs : FS
  events : List Event
deriving DecidableEq

/-- `create_self_signed_cert` (start_https_server.py).  If both
`server.crt` and `server.key` exist, return their paths at once with the
filesystem untouched; otherwise attempt the `openssl` invocation, whose
behaviour is the `tool` parameter: on success both files hold the freshly
generated contents, on `CalledProcessError` or `FileNotFoundError` the
exception propagates (the model leaves the filesystem unchanged in the
failure cases, where the tool wrote nothing usable). -/
def create_self_signed_cert (tool : ToolResult) (fs : FS) : CertRun :=
  if fs.crt.isSome && fs.key.isSome then
    { outcome := CertOutcome.ok "server.crt" "server.key", fs := fs,
      events := [Event.printMsg "[INFO] Using existing certificate"] }
  else
    match tool with
    | ToolResult.ok c k =>
        { outcome := CertOutcome.ok "server.crt" "server.key",
          fs := ⟨some c, some k⟩,
          events := [Event.printMsg "[INFO] Creating self-signed certificate...",
                     Event.runCmd opensslCmd,
                     Event.printMsg "[SUCCESS] Certificate created successfully"] }
    | ToolResult.nonzeroExit =>
        { outcome := CertOutcome.calledProcessError, fs := fs,
          events := [Event.printMsg "[INFO] Creating self-signed certificate...",
                     Event.runCmd opensslCmd] }
    | ToolResult.notFound =>
        { outcome := CertOutcome.fileNotFoundError, fs := fs,
          events := [Event.printMsg "[INFO] Creating self-signed certificate...",
                     Event.runCmd opensslCmd] }

/-- Result of `start_https_server`: the event trace, the process's working
directory when the function returns or enters the serve loop, the
filesystem afterwards (per directory), and whether a listening socket was
bound. -/
structure StartResult where
  events : List Event
  finalCwd : String
  fsAfter : String → FS
  bound : Bool

/-- `start_https_server` (start_https_server.py).  `fsOf d` is the
certificate-pair state of directory `d`; `cwd0` is the process's working
directory at entry.  The function first executes `os.chdir(directory)`, so
the certificate lookup and any generation read and write `fsOf directory`,
never `fsOf cwd0`.  On a certificate exception it prints the error plus
install hints and returns without binding; otherwise it binds the port,
loads the certificate pair, and enters the serve loop. -/
def start_https_server (tool : ToolResult) (fsOf : String → FS)
    (cwd0 : String) (port : Int) (directory : String) : StartResult :=
  let cwd1 := directory
  let run := create_self_signed_cert tool (fsOf cwd1)
  let fs1 := fun d => if d = cwd1 then run.fs else fsOf d
  match run.outcome with
  | CertOutcome.ok crt key =>
      { events := Event.chdir directory :: run.events ++
          [Event.bindPort port, Event.loadCert crt key, Event.serveLoop],
        finalCwd := cwd1, fsAfter := fs1, bound := true }
  | CertOutcome.calledProcessError =>
      { events := Event.chdir directory :: run.events ++
          [Event.printMsg "[ERROR] Failed to create certificate. Make sure OpenSSL is installed.",
           Event.printMsg "[INFO] On macOS: brew install openssl",
           Event.printMsg "[INFO] On Ubuntu: sudo apt-get install openssl"],
        finalCwd := cwd1, fsAfter := fs1, bound := false }
  | CertOutcome.fileNotFoundError =>
      { events := Event.chdir directory :: run.events ++
          [Event.printMsg "[ERROR] OpenSSL not found. Please install OpenSSL first.",
           Event.printMsg "[INFO] On macOS: brew install openssl",
           Event.printMsg "[INFO] On Ubuntu: sudo apt-get install openssl"],
        finalCwd := cwd1, fsAfter := fs1, bound := false }

/-- The external-command invocations recorded in an event trace, in order. -/
def invocations (es : List Event) : List (List String) :=
  es.filterMap (fun e => match e with | Event.runCmd c => some c | _ => none)

/-- `end_headers` of the handler the HTTPS server installs
(`Handler = http.server.SimpleHTTPRequestHandler`, start_https_server.py
line 55): the unmodified library handler flushes exactly the buffered
standard headers and injects nothing. -/
def https_end_headers (base : List Header) : List Header := base

/-- `guess_type` of the handler the HTTPS server installs: the unmodified
library default guesser `g`, with no extension overrides. -/
def https_guess_type (g : String → String × Option String) (path : String) :
    String × Option String := g path

/-! Helper lemmas. -/

/-- If the first `n+1` elements of `l` are `a :: r`, then `l` starts with `a`. -/
theorem head_of_take (l : List Char) (a : Char) (r : List Char) (n : Nat)
    (h : List.take (n + 1) l = a :: r) : l.head? = some a := by
  cases l with
  | nil => simp at h
  | cons x xs =>
      rw [List.take_succ_cons] at h
      rw [List.head?_cons]
      exact congrArg some (List.head_eq_of_cons_eq h)

/-- A string ending in `t` has `t`'s last character as its own last
character (stated on the reversed character list). -/
theorem pyEndsWith_head (s t : String) (a : Char) (r : List Char)
    (ht : t.toList.reverse = a :: r) (h : pyEndsWith s t = true) :
    s.toList.reverse.head? = some a := by
  have hlen : t.toList.length = r.length + 1 := by
    have := congrArg List.length ht
    simpa using this
  have heq : s.toList.reverse.take t.toList.length = t.toList.reverse :=
    by simpa [pyEndsWith] using h
  rw [hlen, ht] at heq
  exact head_of_take _ a r r.length heq

/-- Two suffixes with distinct last characters cannot both be suffixes of
the same string. -/
theorem pyEndsWith_excl (p t u : String) (a b : Char) (r1 r2 : List Char)
    (ht : t.toList.reverse = a :: r1) (hu : u.toList.reverse = b :: r2)
    (hab : a ≠ b) (h : pyEndsWith p t = true) : pyEndsWith p u = false := by
  cases hw : pyEndsWith p u with
  | false => rfl
  | true =>
      have h1 := pyEndsWith_head p t a r1 ht h
      have h2 := pyEndsWith_head p u b r2 hu hw
      rw [h1] at h2
      exact absurd (Option.some.inj h2) hab

/-! Claim theorems. -/

/-- Claim C1: every response the plain HTTP server sends carries
`Cross-Origin-Embedder-Policy: require-corp` and
`Cross-Origin-Opener-Policy: same-origin`, appended unconditionally after
the underlying library's standard headers `base` (which cover both 200 and
404 responses, since `base` is universally quantified). -/
theorem c1_cors_headers (base : List Header) :
    coepHeader ∈ end_headers base ∧ coopHeader ∈ end_headers base ∧
    (end_headers base).take base.length = base ∧
    (end_headers base).drop base.length = [coepHeader, coopHeader] := by
  refine ⟨?_, ?_, ?_, ?_⟩ <;>
    simp [end_headers, List.take_left, List.drop_left]

/-- Claim C2: the HTTP server's MIME resolution reports
`application/wasm` for paths ending in `.wasm`, `application/javascript`
for `.js`, `text/html` for `.html` (independently of file contents, which
`guess_type` never consults), defers to the library guesser `g` for every
other path, and always passes the encoding component through unchanged. -/
theorem c2_mime (g : String → String × Option String) (path : String) :
    (pyEndsWith path ".wasm" = true →
       guess_type g path = ("application/wasm", (g path).2)) ∧
    (pyEndsWith path ".js" = true →
       guess_type g path = ("application/javascript", (g path).2)) ∧
    (pyEndsWith path ".html" = true →
       guess_type g path = ("text/html", (g path).2)) ∧
    (pyEndsWith path ".wasm" = false → pyEndsWith path ".js" = false →
       pyEndsWith path ".html" = false → guess_type g path = g path) ∧
    (guess_type g path).2 = (g path).2 := by
  refine ⟨?_, ?_, ?_, ?_, ?_⟩
  · intro hw
    simp [guess_type, hw]
  · intro hj
    have hw := pyEndsWith_excl path ".js" ".wasm" 's' 'm' ['j', '.']
      ['s', 'a', 'w', '.'] (by decide) (by decide) (by decide) hj
    simp [guess_type, hw, hj]
  · intro hh
    have hw := pyEndsWith_excl path ".html" ".wasm" 'l' 'm' ['m', 't', 'h', '.']
      ['s', 'a', 'w', '.'] (by decide) (by decide) (by decide) hh
    have hj := pyEndsWith_excl path ".html" ".js" 'l' 's' ['m', 't', 'h', '.']
      ['j', '.'] (by decide) (by decide) (by decide) hh
    simp [guess_type, hw, hj, hh]
  · intro hw hj hh
    simp [guess_type, hw, hj, hh]
  · unfold guess_type
    split
    · rfl
    split
    · rfl
    split
    · rfl
    · rfl

/-- Witness for C2 at concrete inputs: a `.wasm` path is forced to
`application/wasm` with the guesser's encoding intact. -/
theorem c2_mime_witness :
    guess_type (fun _ => ("text/plain", some "gzip")) "app.wasm" =
      ("application/wasm", some "gzip") :=
  (c2_mime (fun _ => ("text/plain", some "gzip")) "app.wasm").1 (by decide)

/-- Claim C8: a formatted log line containing "200" is emitted with the
success marker, one containing "404" (and not "200") with the failure
marker, and any other line with the informational marker. -/
theorem c8_log (message : String) :
    (inStr "200" message = true → log_message message = "✅ " ++ message) ∧
    (inStr "200" message = false → inStr "404" message = true →
       log_message message = "❌ " ++ message) ∧
    (inStr "200" message = false → inStr "404" message = false →
       log_message message = "ℹ️  " ++ message) := by
  refine ⟨?_, ?_, ?_⟩
  · intro h2
    simp [log_message, h2]
  · intro h2 h4
    simp [log_message, h2, h4]
  · intro h2 h4
    simp [log_message, h2, h4]

/-- Witness for C8 at a concrete log line containing "200". -/
theorem c8_log_witness :
    log_message "GET /index.html HTTP/1.1 200 -" =
      "✅ GET /index.html HTTP/1.1 200 -" :=
  (c8_log "GET /index.html HTTP/1.1 200 -").1 (by decide)

/-- Claim C7: the HTTP server reads its positional arguments as
`[port] [directory]` (defaults 3377 and the current working directory,
modelled as `none`), while the HTTPS server reads them in the reversed
order `[directory] [port]` (defaults `"build_web/apps/viewer"` and 3443).
`a1`, `a2` are the first and second positional arguments and `toInt` is
Python's `int`, assumed to parse whichever argument each script converts. -/
theorem c7_cli (toInt : String → Option Int) (prog a1 a2 : String)
    (n1 n2 : Int) (h1 : toInt a1 = some n1) (h2 : toInt a2 = some n2) :
    httpMain toInt [prog] = some ⟨3377, none⟩ ∧
    httpMain toInt [prog, a1] = some ⟨n1, none⟩ ∧
    httpMain toInt [prog, a1, a2] = some ⟨n1, some a2⟩ ∧
    httpsMain toInt [prog] = some ⟨"build_web/apps/viewer", 3443⟩ ∧
    httpsMain toInt [prog, a1] = some ⟨a1, 3443⟩ ∧
    httpsMain toInt [prog, a1, a2] = some ⟨a1, n2⟩ := by
  refine ⟨rfl, ?_, ?_, rfl, rfl, ?_⟩ <;> simp [httpMain, httpsMain, h1, h2]

/-- Witness for C7 at concrete argument vectors, with `pyInt` as the
`int` parser: the same two arguments are port-then-directory for the HTTP
script and directory-then-port for the HTTPS script. -/
theorem c7_cli_witness :
    httpMain pyInt ["dev-server.py", "8080", "9090"] = some ⟨8080, some "9090"⟩ ∧
    httpsMain pyInt ["start_https_server.py", "8080", "9090"] = some ⟨"8080", 9090⟩ := by
  have h := c7_cli pyInt "x" "8080" "9090" 8080 9090 (by decide) (by decide)
  exact ⟨h.2.2.1, h.2.2.2.2.2⟩

/-- Claim C3: with both `server.crt` and `server.key` present the bootstrap
returns the pair at once, invokes no command and modifies neither file;
otherwise, when the tool succeeds, it invokes the generation command exactly
once — with `-days 365`, `-nodes` (no passphrase) and the fixed subject,
as the spelled-out `opensslCmd` shows — before returning the same pair. -/
theorem c3_cert_bootstrap (fs : FS) (tool : ToolResult) (c k : String) :
    ((fs.crt.isSome && fs.key.isSome) = true →
       (create_self_signed_cert tool fs).outcome =
         CertOutcome.ok "server.crt" "server.key" ∧
       (create_self_signed_cert tool fs).fs = fs ∧
       invocations (create_self_signed_cert tool fs).events = []) ∧
    ((fs.crt.isSome && fs.key.isSome) = false → tool = ToolResult.ok c k →
       invocations (create_self_signed_cert tool fs).events = [opensslCmd] ∧
       (create_self_signed_cert tool fs).outcome =
         CertOutcome.ok "server.crt" "server.key") ∧
    opensslCmd = ["openssl", "req", "-new", "-x509", "-keyout", "server.key",
                  "-out", "server.crt", "-days", "365", "-nodes",
                  "-subj", "/C=US/ST=CA/L=localhost/O=WebGPU-Test/CN=localhost"] := by
  refine ⟨?_, ?_, rfl⟩
  · intro h
    refine ⟨?_, ?_, ?_⟩ <;> simp [create_self_signed_cert, h, invocations]
  · intro h htool
    subst htool
    refine ⟨?_, ?_⟩ <;> simp [create_self_signed_cert, h, invocations]

/-- Witness for C3: with both files present the filesystem is untouched and
no command runs; with both absent and the tool succeeding, exactly the one
`openssl` invocation happens. -/
theorem c3_cert_bootstrap_witness :
    ((create_self_signed_cert ToolResult.nonzeroExit ⟨some "C", some "K"⟩).fs =
       ⟨some "C", some "K"⟩ ∧
     invocations (create_self_signed_cert ToolResult.nonzeroExit
       ⟨some "C", some "K"⟩).events = []) ∧
    invocations (create_self_signed_cert (ToolResult.ok "NC" "NK")
      ⟨none, none⟩).events = [opensslCmd] := by
  have hboth := (c3_cert_bootstrap ⟨some "C", some "K"⟩ ToolResult.nonzeroExit
    "x" "y").1 (by decide)
  have hgen := (c3_cert_bootstrap ⟨none, none⟩ (ToolResult.ok "NC" "NK")
    "NC" "NK").2.1 (by decide) rfl
  exact ⟨⟨hboth.2.1, hboth.2.2⟩, hgen.1⟩

/-- Claim C9: when exactly one of the two certificate files exists, the
reuse branch is not taken: the generation command is invoked (once), and
afterwards both files hold the freshly generated contents — the surviving
lone file has been overwritten. -/
theorem c9_lone_file (fs : FS) (c k : String)
    (h : fs.crt.isSome ≠ fs.key.isSome) :
    invocations (create_self_signed_cert (ToolResult.ok c k) fs).events =
      [opensslCmd] ∧
    (create_self_signed_cert (ToolResult.ok c k) fs).fs = ⟨some c, some k⟩ := by
  have hb : (fs.crt.isSome && fs.key.isSome) = false := by
    cases hc : fs.crt.isSome <;> cases hk : fs.key.isSome <;> simp_all
  refine ⟨?_, ?_⟩ <;> simp [create_self_signed_cert, hb, invocations]

/-- Witness for C9: a lone `server.crt` with old contents is replaced by
the newly generated certificate. -/
theorem c9_lone_file_witness :
    (create_self_signed_cert (ToolResult.ok "NEWCRT" "NEWKEY")
       ⟨some "OLDCRT", none⟩).fs = ⟨some "NEWCRT", some "NEWKEY"⟩ :=
  (c9_lone_file ⟨some "OLDCRT", none⟩ "NEWCRT" "NEWKEY" (by decide)).2

/-- Claim C4: whenever certificate generation is actually reached (the pair
is not already on disk) and the tool is missing or exits non-zero, the
HTTPS startup prints the corresponding error — with installation hints when
the tool is missing — attempts the command only once (no retry), never
binds a port, never enters the serve loop, and returns unbound. -/
theorem c4_no_bind (tool : ToolResult) (fsOf : String → FS)
    (cwd0 dir : String) (port : Int)
    (hfs : ((fsOf dir).crt.isSome && (fsOf dir).key.isSome) = false)
    (htool : tool = ToolResult.nonzeroExit ∨ tool = ToolResult.notFound) :
    (start_https_server tool fsOf cwd0 port dir).bound = false ∧
    (∀ p, Event.bindPort p ∉ (start_https_server tool fsOf cwd0 port dir).events) ∧
    Event.serveLoop ∉ (start_https_server tool fsOf cwd0 port dir).events ∧
    invocations (start_https_server tool fsOf cwd0 port dir).events = [opensslCmd] ∧
    (tool = ToolResult.notFound →
       Event.printMsg "[ERROR] OpenSSL not found. Please install OpenSSL first." ∈
         (start_https_server tool fsOf cwd0 port dir).events ∧
       Event.printMsg "[INFO] On macOS: brew install openssl" ∈
         (start_https_server tool fsOf cwd0 port dir).events ∧
       Event.printMsg "[INFO] On Ubuntu: sudo apt-get install openssl" ∈
         (start_https_server tool fsOf cwd0 port dir).events) ∧
    (tool = ToolResult.nonzeroExit →
       Event.printMsg "[ERROR] Failed to create certificate. Make sure OpenSSL is installed." ∈
         (start_https_server tool fsOf cwd0 port dir).events) := by
  rcases htool with htool | htool <;> subst htool <;>
    simp [start_https_server, create_self_signed_cert, hfs, invocations]

/-- Witness for C4: with no certificate files and `openssl` absent, the
server does not bind and prints the installation hint. -/
theorem c4_no_bind_witness :
    (start_https_server ToolResult.notFound (fun _ => ⟨none, none⟩)
       "/invocation" 3443 "build_web/apps/viewer").bound = false ∧
    Event.printMsg "[ERROR] OpenSSL not found. Please install OpenSSL first." ∈
      (start_https_server ToolResult.notFound (fun _ => ⟨none, none⟩)
        "/invocation" 3443 "build_web/apps/viewer").events := by
  have h := c4_no_bind ToolResult.notFound (fun _ => ⟨none, none⟩)
    "/invocation" "build_web/apps/viewer" 3443 (by decide) (Or.inr rfl)
  exact ⟨h.1, (h.2.2.2.2.1 rfl).1⟩

/-- Claim C5: during every HTTPS startup the `chdir` to the serving
directory is the very first event, hence precedes the certificate lookup
and any port binding (every `bindPort` event sits at a positive index);
certificate paths are resolved against the serving directory — the result
never depends on the invocation directory, and the reuse decision is taken
from the serving directory's files. -/
theorem c5_chdir_first (tool : ToolResult) (fsOf : String → FS)
    (cwd0 cwd0' dir : String) (port : Int) :
    (start_https_server tool fsOf cwd0 port dir).events.head? =
      some (Event.chdir dir) ∧
    start_https_server tool fsOf cwd0 port dir =
      start_https_server tool fsOf cwd0' port dir ∧
    (((fsOf dir).crt.isSome && (fsOf dir).key.isSome) = true →
       invocations (start_https_server tool fsOf cwd0 port dir).events = []) ∧
    (∀ i p, (start_https_server tool fsOf cwd0 port dir).events[i]? =
       some (Event.bindPort p) → 0 < i) := by
  refine ⟨?_, rfl, ?_, ?_⟩
  · cases ho : (create_self_signed_cert tool (fsOf dir)).outcome <;>
      simp [start_https_server, ho]
  · intro h
    simp [start_https_server, create_self_signed_cert, h, invocations]
  · intro i p h
    cases i with
    | zero =>
        cases ho : (create_self_signed_cert tool (fsOf dir)).outcome <;>
          simp [start_https_server, ho] at h
    | succ n => exact Nat.succ_pos n

/-- Witness for C5: with a certificate pair present in the serving
directory (whatever the invocation directory holds), no generation command
runs. -/
theorem c5_chdir_first_witness :
    invocations (start_https_server ToolResult.notFound
      (fun _ => ⟨some "C", some "K"⟩) "/invocation" 3443 "srv").events = [] :=
  (c5_chdir_first ToolResult.notFound (fun _ => ⟨some "C", some "K"⟩)
    "/invocation" "/elsewhere" "srv" 3443).2.2.1 (by decide)

/-- Claim C10: when startup aborts because certificate creation fails, the
working-directory change has already happened and is not rolled back: the
function returns unbound with the process still in the serving directory. -/
theorem c10_chdir_not_undone (tool : ToolResult) (fsOf : String → FS)
    (cwd0 dir : String) (port : Int)
    (hfs : ((fsOf dir).crt.isSome && (fsOf dir).key.isSome) = false)
    (htool : tool = ToolResult.nonzeroExit ∨ tool = ToolResult.notFound) :
    (start_https_server tool fsOf cwd0 port dir).bound = false ∧
    (start_https_server tool fsOf cwd0 port dir).finalCwd = dir := by
  rcases htool with htool | htool <;> subst htool <;>
    simp [start_https_server, create_self_signed_cert, hfs]

/-- Witness for C10: after a failed bootstrap the final working directory
is the serving directory, not the invocation directory. -/
theorem c10_chdir_not_undone_witness :
    (start_https_server ToolResult.nonzeroExit (fun _ => ⟨none, none⟩)
       "/invocation" 3443 "build_web/apps/viewer").finalCwd =
      "build_web/apps/viewer" :=
  (c10_chdir_not_undone ToolResult.nonzeroExit (fun _ => ⟨none, none⟩)
    "/invocation" "build_web/apps/viewer" 3443 (by decide) (Or.inl rfl)).2

/-- Claim C6: the HTTPS server's handler is the library's unmodified one:
its header flush adds nothing (in particular no COEP/COOP header appears
that was not already among the standard headers) and its MIME resolution is
exactly the library default, with no `.wasm`/`.js`/`.html` override. -/
theorem c6_https_unmodified (base : List Header)
    (g : String → String × Option String) (path : String)
    (h1 : coepHeader ∉ base) (h2 : coopHeader ∉ base) :
    https_end_headers base = base ∧
    coepHeader ∉ https_end_headers base ∧
    coopHeader ∉ https_end_headers base ∧
    https_guess_type g path = g path := by
  exact ⟨rfl, h1, h2, rfl⟩

/-- Witness for C6: a `.wasm` request through the HTTPS handler keeps the
library's default type, and no CORS header is added to a plain header
list. -/
theorem c6_https_unmodified_witness :
    https_end_headers [⟨"Content-Type", "text/html"⟩] =
      [⟨"Content-Type", "text/html"⟩] ∧
    https_guess_type (fun _ => ("application/octet-stream", none)) "m.wasm" =
      ("application/octet-stream", none) := by
  have h := c6_https_unmodified [⟨"Content-Type", "text/html"⟩]
    (fun _ => ("application/octet-stream", none)) "m.wasm"
    (by decide) (by decide)
  exact ⟨h.1, h.2.2.2⟩

end WebGPUServers
